import Mathlib

/-!
# Verification of the playfab-go request engine

Shallow embedding of `src/PlayFabClient.go` (package `playfab`), the part
reachable from the claims: the retry engine `(*PlayFab).request`, its helpers
`_request`, `isConflictError`, `ConvertToPlayFabErrorJson`, the constructor
`New`, and the endpoint wrappers `RevokeInventoryItems` and `GetPlayerTags`.

Modelling decisions:
* The Go standard library (`net/http`, `encoding/json`, `strings`, `time`) is
  not repository code.  A network attempt is modelled by an environment
  `env : Nat → TransportResult` giving, for each attempt index, either a
  transport-level failure (no HTTP response) or an HTTP response.  An HTTP
  response body is a `RespBody`: the raw byte string together with the outcome
  that `json.Unmarshal` into `map[string]interface{}` produces on those bytes
  (`.ok` with the decoded object, or `.error` with the decoder's message).
  Concrete bodies used in witnesses and counterexamples pair a literal text
  with the outcome Go's decoder has on exactly that text.
* JSON values decoded into `interface{}` are modelled by `JVal`; objects are
  association lists (`map[string]interface{}`).  The numeric payload is
  irrelevant to every claim and is modelled as `Int`.
* Go's `strings.Contains` is modelled by `strContains` (substring anywhere).
* Errors are `GoError`: a transport error, a `*PlayFabError` (whose
  `originError` text is determined by its fields, see `_request`), or a plain
  `fmt.Errorf` error.
* Observable effects are counted: `attempts` (calls to `_request`) and
  `sleeps` (calls to `time.Sleep`).
* In Go's `request`, the loop-local `d, oerr := _request(...)` shadows the
  named result `d`, and `errorData, err = ConvertToPlayFabErrorJson(oerr)`
  assigns the named result `err`; the model threads that named `err` through
  the loop (`errState`) and returns the outer, never-assigned `d` (= nil)
  when the loop exhausts, exactly as the Go code does.
-/

/-- A JSON value as decoded by `encoding/json` into `interface{}`. -/
inductive JVal where
  | null : JVal
  | bool (b : Bool) : JVal
  | num (n : Int) : JVal
  | str (s : String) : JVal
  | arr (xs : List JVal) : JVal
  | obj (fields : List (String × JVal)) : JVal


/-- Go type assertion `.(string)` on an `interface{}` value. -/
def JVal.asString : JVal → Option String
  | .str s => some s
  | _ => none

/-- Go type assertion `.([]interface\x7b\x7d)` on an `interface{}` value. -/
def JVal.asArr : JVal → Option (List JVal)
  | .arr xs => some xs
  | _ => none

/-- Go type assertion `.(map[string]interface\x7b\x7d)` on an `interface{}` value. -/
def JVal.asObj : JVal → Option (List (String × JVal))
  | .obj fs => some fs
  | _ => none

/-- An HTTP response body: the raw bytes plus the outcome of
`json.Unmarshal(body, &m)` for `m : map[string]interface{}` on those bytes
(`.error` carries the decoder's message, e.g. for invalid JSON or a
non-object top level). -/
structure RespBody where
  text : String
  parse : Except String (List (String × JVal))


/-- Result of one transport send: either a transport-level failure
(`hc.Do` / `ioutil.ReadAll` returned an error — connection refused, timeout;
no HTTP response) or an HTTP response with status code and body. -/
inductive TransportResult where
  | transportErr (msg : String) : TransportResult
  | httpResp (code : Nat) (body : RespBody) : TransportResult


/-- The `error` values occurring in the embedded code: a transport-level
error, a `*PlayFabError` (fields `Method`, `RespCode`, `Body`; its
`originError` is the `fmt.Errorf` built in `_request`), or a plain
`fmt.Errorf` error with a fixed message. -/
inductive GoError where
  | transport (msg : String) : GoError
  | playFab (method : String) (respCode : Nat) (body : RespBody) : GoError
  | errorf (msg : String) : GoError


/-- `err.Error()` for the modelled errors.  For `*PlayFabError` this is
`fmt.Sprintf("%s - %s", e.Method, e.originError.Error())` with
`originError = fmt.Errorf("Failed To Process Request With status code %d: %s",
resp.StatusCode, string(resBody))` from `_request`. -/
def GoError.message : GoError → String
  | .transport m => m
  | .playFab method code body =>
      method ++ " - " ++ "Failed To Process Request With status code "
        ++ toString code ++ ": " ++ body.text
  | .errorf m => m

/-- `const retries = 3` (PlayFabClient.go line 814). -/
def retries : Nat := 3

/-- `const conflictStatus = "Conflict"` (PlayFabClient.go line 815). -/
def conflictStatus : String := "Conflict"

/-- Substring containment on character lists: `sub` occurs somewhere in `s`. -/
def listContainsSub (sub s : List Char) : Bool :=
  s.tails.any fun t => sub.isPrefixOf t

/-- Go `strings.Contains(s, sub)`. -/
def strContains (s sub : String) : Bool :=
  listContainsSub sub.toList s.toList

/-- The three `strings.Contains` tests on `err.Error()` in `request`
(PlayFabClient.go lines 1580-1582): `isServiceUnavailableError`,
`isBadRequestError`, `isBadGateWay`, combined as in line 1583. -/
def containsRetrySubstr (s : String) : Bool :=
  strContains s "Service Unavailable" || strContains s "Bad Request"
    || strContains s "Bad Gateway"

/-- `ConvertToPlayFabErrorJson` (PlayFabClient.go lines 1656-1671): type-assert
the error to `*PlayFabError` (fails for transport errors with a fixed
message), then `json.Unmarshal` its `Body`; on decode failure the returned
error appends ` originalError: ` and the original body bytes. -/
def ConvertToPlayFabErrorJson : GoError → Except GoError (List (String × JVal))
  | .playFab _ _ body =>
      match body.parse with
      | .ok errorData => .ok errorData
      | .error msg => .error (.errorf (msg ++ " originalError: " ++ body.text))
  | _ => .error (.errorf "Failed to convert to playfab error")

/-- `isConflictError` (PlayFabClient.go lines 1641-1654): read
`errorData["status"].(string)`; absent or non-string yields
`(error, false)`; otherwise `(nil, status == conflictStatus)`. -/
def isConflictError (errorData : List (String × JVal)) : Option GoError × Bool :=
  match (List.lookup "status" errorData).bind JVal.asString with
  | none => (some (.errorf "Failed to parse status from error"), false)
  | some s => if s = conflictStatus then (none, true) else (none, false)

/-- `_request` (PlayFabClient.go lines 1606-1639): perform one send.  A
transport-level failure returns `(nil, err)`.  Otherwise read the body; a
non-200 status returns the body together with a `*PlayFabError` carrying the
function name, status code and body; a 200 status returns the body and no
error. -/
def requestAttempt (funcName : String) (tr : TransportResult) :
    Option RespBody × Option GoError :=
  match tr with
  | .transportErr msg => (none, some (.transport msg))
  | .httpResp code body =>
      if code = 200 then (some body, none)
      else (some body, some (.playFab funcName code body))

/-- Result of `(*PlayFab).request`: the returned byte slice (`none` = nil),
the returned error (`none` = nil), and the observable effect counts. -/
structure ReqResult where
  d : Option RespBody
  err : Option GoError
  attempts : Nat
  sleeps : Nat


/-- The retry loop of `(*PlayFab).request` (PlayFabClient.go lines
1570-1603), one constructor case per remaining loop iteration (`fuel` =
number of iterations still allowed by `counter <= retries`).  `errState` is
the function's named return `err`, assigned only by
`errorData, err = ConvertToPlayFabErrorJson(oerr)`; the loop-exit return
yields the outer `d`, which the loop-local `d, oerr := _request(...)`
shadows and which therefore stays nil. -/
def requestLoop (env : Nat → TransportResult) (funcName : String) :
    Nat → Nat → Option GoError → Nat → Nat → ReqResult
  | _, 0, errState, attempts, sleeps => ⟨none, errState, attempts, sleeps⟩
  | attempt, fuel + 1, errState, attempts, sleeps =>
      match requestAttempt funcName (env attempt) with
      | (d, some oerr) =>
          match ConvertToPlayFabErrorJson oerr with
          | .error e =>
              if containsRetrySubstr e.message then
                requestLoop env funcName (attempt + 1) fuel (some e)
                  (attempts + 1) (sleeps + 1)
              else ⟨d, some e, attempts + 1, sleeps⟩
          | .ok errorData =>
              match isConflictError errorData with
              | (some e, _) => ⟨d, some e, attempts + 1, sleeps⟩
              | (none, true) =>
                  requestLoop env funcName (attempt + 1) fuel none
                    (attempts + 1) (sleeps + 1)
              | (none, false) => ⟨d, some oerr, attempts + 1, sleeps⟩
      | (d, none) => ⟨d, none, attempts + 1, sleeps⟩

namespace PlayFab

/-- `(*PlayFab).request` (PlayFabClient.go lines 1568-1604): run the loop
with `counter` from 0 while `counter <= retries`, i.e. `retries + 1`
iterations.  The client's fields (secret, title id) and the method/api/body
arguments only shape the outgoing HTTP request, which `env` abstracts. -/
def request (env : Nat → TransportResult) (funcName : String) : ReqResult :=
  requestLoop env funcName 0 (retries + 1) none 0 0

end PlayFab

/-- The client record built by `New` (PlayFabClient.go lines 843-849); the
logger and `http.Client` fields only affect logging and the transport, which
the environment abstracts. -/
structure PlayFab where
  secret : String
  catalogVersion : String
  titleId : String

/-- `New` (PlayFabClient.go lines 851-880): `switch ""` against `secret`,
`catalogVersion`, `titleId` in that order, returning `(nil, error)` on the
first empty one; otherwise build the client.  The body only allocates the
transport and client structs — it performs no I/O, so the model is a pure
function. -/
def New (secret titleId catalogVersion : String) : Except GoError PlayFab :=
  if secret = "" then .error (.errorf "secret is required")
  else if catalogVersion = "" then .error (.errorf "catalog version is required")
  else if titleId = "" then .error (.errorf "titleId is required")
  else .ok ⟨secret, catalogVersion, titleId⟩

/-- Observable outcome of an endpoint wrapper: returned error, number of
network invocations (attempts of the engine), and the JSON body of the
issued request (`none` when no request was issued). -/
structure OpTrace where
  err : Option GoError
  networkCalls : Nat
  sentBody : Option JVal

namespace PlayFab

/-- `(*PlayFab).RevokeInventoryItems` (PlayFabClient.go lines 1437-1467):
drop nil entries; if nothing remains return nil without calling `request`;
otherwise marshal `{"Items": newRevokeInventoryItems}` (total here:
`json.Marshal` cannot fail on these values) and call the engine, returning
its error. -/
def RevokeInventoryItems (env : Nat → TransportResult)
    (revokeInventoryItems : List (Option (List (String × JVal)))) : OpTrace :=
  let newRevokeInventoryItems := revokeInventoryItems.filterMap id
  if newRevokeInventoryItems.length = 0 then ⟨none, 0, none⟩
  else
    let requestBody :=
      JVal.obj [("Items", JVal.arr (newRevokeInventoryItems.map JVal.obj))]
    let r := request env "RevokeInventoryItems"
    ⟨r.err, r.attempts, some requestBody⟩

end PlayFab

/-- The tag-collection loop of `GetPlayerTags` (PlayFabClient.go lines
1553-1563): each element must type-assert to `string`, otherwise the fixed
error is returned. -/
def extractTags : List JVal → Except GoError (List String)
  | [] => .ok []
  | v :: rest =>
      match v.asString with
      | none => .error (.errorf "Failed to parse tags result")
      | some s => (extractTags rest).map fun tags => s :: tags

namespace PlayFab

/-- `(*PlayFab).GetPlayerTags` (PlayFabClient.go lines 1526-1566): call the
engine; on error return it.  `json.Unmarshal` the returned bytes (on a nil
slice Go fails with "unexpected end of JSON input"); `res["data"]` must
type-assert to an object, else a fixed error; `data["Tags"]` is type-asserted
to a slice with the `ok` flag discarded, so a missing or non-array value
leaves the nil slice and the loop collects no tags.  The `playFabId`
argument only enters the marshalled request body, which `env` abstracts. -/
def GetPlayerTags (env : Nat → TransportResult) : Except GoError (List String) :=
  let r := request env "GetPlayerTags"
  match r.err with
  | some e => .error e
  | none =>
      match r.d with
      | none => .error (.errorf "unexpected end of JSON input")
      | some body =>
          match body.parse with
          | .error msg => .error (.errorf msg)
          | .ok res =>
              match (List.lookup "data" res).bind JVal.asObj with
              | none => .error (.errorf "Failed to parse GetPlayerCombinedInfo result")
              | some data =>
                  extractTags (((List.lookup "Tags" data).bind JVal.asArr).getD [])

end PlayFab

/-- The body `{"status":"Conflict"}` with its decode. -/
def conflictBody : RespBody :=
  ⟨"\x7b\"status\":\"Conflict\"\x7d", .ok [("status", JVal.str "Conflict")]⟩

/-- The body `{"status":"Unknown"}` with its decode. -/
def unknownBody : RespBody :=
  ⟨"\x7b\"status\":\"Unknown\"\x7d", .ok [("status", JVal.str "Unknown")]⟩

/-- The body `{"status":"Bad Request"}` with its decode. -/
def badRequestBody : RespBody :=
  ⟨"\x7b\"status\":\"Bad Request\"\x7d", .ok [("status", JVal.str "Bad Request")]⟩

/-- The body `{"status":"ServiceUnavailable"}` with its decode. -/
def serviceUnavailBody : RespBody :=
  ⟨"\x7b\"status\":\"ServiceUnavailable\"\x7d",
    .ok [("status", JVal.str "ServiceUnavailable")]⟩

/-- A plain-text 502 page body, not valid JSON; `json.Unmarshal` on it fails
with the given message. -/
def badGatewayBody : RespBody :=
  ⟨"Bad Gateway",
    .error "invalid character \x27B\x27 looking for beginning of value"⟩

/-- A short invalid-JSON body with its decoder message. -/
def notJsonBody : RespBody :=
  ⟨"oops", .error "invalid character \x27o\x27 looking for beginning of value"⟩

/-- A 200 body `{"data":{}}` with its decode. -/
def okBody : RespBody :=
  ⟨"\x7b\"data\":\x7b\x7d\x7d", .ok [("data", JVal.obj [])]⟩

/-- A 200 body whose `data` object has no `Tags` key. -/
def dataOnlyBody : RespBody :=
  ⟨"\x7b\"data\":\x7b\"Msg\":\"hi\"\x7d\x7d",
    .ok [("data", JVal.obj [("Msg", JVal.str "hi")])]⟩

/-- Every attempt: HTTP 409 with `{"status":"Conflict"}`. -/
def envConflict : Nat → TransportResult := fun _ => .httpResp 409 conflictBody

/-- Every attempt: HTTP 502 with a plain-text non-JSON `Bad Gateway` page. -/
def envBadGateway : Nat → TransportResult := fun _ => .httpResp 502 badGatewayBody

/-- Every attempt: transport-level failure, no HTTP response. -/
def envConnRefused : Nat → TransportResult :=
  fun _ => .transportErr "connection refused"

/-- Every attempt: HTTP 400 with `{"status":"Bad Request"}`. -/
def envBadRequest : Nat → TransportResult := fun _ => .httpResp 400 badRequestBody

/-! ## Step lemmas for the retry loop -/

/-- Exhausted budget: the loop exit returns the outer (nil) `d` and the named
`err`. -/
theorem requestLoop_exhaust (env : Nat → TransportResult) (fn : String)
    (attempt : Nat) (errState : Option GoError) (a s : Nat) :
    requestLoop env fn attempt 0 errState a s = ⟨none, errState, a, s⟩ := rfl

/-- A 200 response ends the loop with the body and no error. -/
theorem requestLoop_success_step (env : Nat → TransportResult) (fn : String)
    (attempt fuel : Nat) (errState : Option GoError) (a s : Nat) (body : RespBody)
    (henv : env attempt = TransportResult.httpResp 200 body) :
    requestLoop env fn attempt (fuel + 1) errState a s
      = ⟨some body, none, a + 1, s⟩ := by
  simp [requestLoop, henv, requestAttempt]

/-- A transport-level failure is not a `*PlayFabError`, so the conversion
fails with a fixed message containing none of the three retry substrings,
and the loop returns at once. -/
theorem requestLoop_transport_step (env : Nat → TransportResult) (fn : String)
    (attempt fuel : Nat) (errState : Option GoError) (a s : Nat) (msg : String)
    (henv : env attempt = TransportResult.transportErr msg) :
    requestLoop env fn attempt (fuel + 1) errState a s
      = ⟨none, some (GoError.errorf "Failed to convert to playfab error"), a + 1, s⟩ := by
  have hsub : containsRetrySubstr "Failed to convert to playfab error" = false := by
    decide
  simp [requestLoop, henv, requestAttempt, ConvertToPlayFabErrorJson,
    GoError.message, hsub]

/-- A non-200 response whose body does not decode ends the loop with the
decoder error (carrying the original body) provided that error text contains
none of the three retry substrings. -/
theorem requestLoop_unparseable_step (env : Nat → TransportResult) (fn : String)
    (attempt fuel : Nat) (errState : Option GoError) (a s : Nat)
    (code : Nat) (body : RespBody) (msg : String)
    (henv : env attempt = TransportResult.httpResp code body) (hc : code ≠ 200)
    (hp : body.parse = Except.error msg)
    (hsub : containsRetrySubstr (msg ++ " originalError: " ++ body.text) = false) :
    requestLoop env fn attempt (fuel + 1) errState a s
      = ⟨some body, some (GoError.errorf (msg ++ " originalError: " ++ body.text)),
          a + 1, s⟩ := by
  simp [requestLoop, henv, requestAttempt, hc, ConvertToPlayFabErrorJson, hp,
    GoError.message, hsub]

/-- A non-200 response whose body decodes to an object with a string `status`
different from `"Conflict"` ends the loop at once with the original
`*PlayFabError`. -/
theorem requestLoop_fatal_status_step (env : Nat → TransportResult) (fn : String)
    (attempt fuel : Nat) (errState : Option GoError) (a s : Nat)
    (code : Nat) (body : RespBody) (obj : List (String × JVal)) (st : String)
    (henv : env attempt = TransportResult.httpResp code body) (hc : code ≠ 200)
    (hp : body.parse = Except.ok obj)
    (hst : (List.lookup "status" obj).bind JVal.asString = some st)
    (hne : st ≠ conflictStatus) :
    requestLoop env fn attempt (fuel + 1) errState a s
      = ⟨some body, some (GoError.playFab fn code body), a + 1, s⟩ := by
  simp [requestLoop, henv, requestAttempt, hc, ConvertToPlayFabErrorJson, hp,
    isConflictError, hst, hne]

/-- A non-200 response with body `{"status":"Conflict"}` makes the loop sleep
and recurse, with the named `err` reset to nil by the successful
conversion. -/
theorem requestLoop_conflict_step (env : Nat → TransportResult) (fn : String)
    (attempt fuel : Nat) (errState : Option GoError) (a s : Nat) (code : Nat)
    (henv : env attempt = TransportResult.httpResp code conflictBody)
    (hc : code ≠ 200) :
    requestLoop env fn attempt (fuel + 1) errState a s
      = requestLoop env fn (attempt + 1) fuel none (a + 1) (s + 1) := by
  simp [requestLoop, henv, requestAttempt, hc, ConvertToPlayFabErrorJson,
    conflictBody, isConflictError, conflictStatus, JVal.asString]

/-! ## Claims -/

/-- C1: when every attempt's response is HTTP non-200 with body
`{"status":"Conflict"}`, the engine performs exactly 4 network attempts (the
initial attempt plus 3 retries) with sleeps between consecutive attempts
(the code in fact also sleeps once more after the final attempt), and gives
up without a 5th attempt. -/
theorem conflict_every_attempt_four_attempts (env : Nat → TransportResult)
    (fn : String) (code : Nat → Nat)
    (henv : ∀ i, i < 4 → env i = TransportResult.httpResp (code i) conflictBody)
    (hcode : ∀ i, i < 4 → code i ≠ 200) :
    (PlayFab.request env fn).attempts = 4 ∧ (PlayFab.request env fn).sleeps = 4 := by
  have h : PlayFab.request env fn = ⟨none, none, 4, 4⟩ := by
    show requestLoop env fn 0 (3 + 1) none 0 0 = _
    rw [requestLoop_conflict_step env fn 0 3 none 0 0 (code 0)
      (henv 0 (by omega)) (hcode 0 (by omega))]
    rw [requestLoop_conflict_step env fn 1 2 none 1 1 (code 1)
      (henv 1 (by omega)) (hcode 1 (by omega))]
    rw [requestLoop_conflict_step env fn 2 1 none 2 2 (code 2)
      (henv 2 (by omega)) (hcode 2 (by omega))]
    rw [requestLoop_conflict_step env fn 3 0 none 3 3 (code 3)
      (henv 3 (by omega)) (hcode 3 (by omega))]
    rfl
  exact ⟨by rw [h], by rw [h]⟩

/-- Witness for C1 at the constant environment `409 {"status":"Conflict"}`. -/
theorem conflict_every_attempt_four_attempts_witness :
    (PlayFab.request (fun _ => TransportResult.httpResp 409 conflictBody)
        "EvaluateRandomResultTable").attempts = 4
      ∧ (PlayFab.request (fun _ => TransportResult.httpResp 409 conflictBody)
          "EvaluateRandomResultTable").sleeps = 4 :=
  conflict_every_attempt_four_attempts _ _ (fun _ => 409)
    (fun _ _ => rfl) (fun _ _ => by show (409 : Nat) ≠ 200; omega)

/-- C2: a 200 response on the first attempt is returned byte-for-byte with a
nil error after exactly one network call and no sleep. -/
theorem http200_returns_body_one_call (env : Nat → TransportResult)
    (fn : String) (body : RespBody)
    (henv : env 0 = TransportResult.httpResp 200 body) :
    PlayFab.request env fn = ⟨some body, none, 1, 0⟩ := by
  show requestLoop env fn 0 (3 + 1) none 0 0 = _
  rw [requestLoop_success_step env fn 0 3 none 0 0 body henv]

/-- Witness for C2 at a constant 200 environment. -/
theorem http200_returns_body_one_call_witness :
    PlayFab.request (fun _ => TransportResult.httpResp 200 okBody) "GetTitleData"
      = ⟨some okBody, none, 1, 0⟩ :=
  http200_returns_body_one_call _ _ okBody rfl

/-- Counterexample for C3: a non-200 response whose body is the non-JSON text
`Bad Gateway` is NOT returned immediately — the decoder error appends the
body, the text then contains "Bad Gateway", and the engine sleeps and
retries, performing 4 attempts instead of 1. -/
theorem nonjson_retry_text_body_is_retried_cex :
    (PlayFab.request envBadGateway "GrantItemsToUsers").attempts = 4
      ∧ (PlayFab.request envBadGateway "GrantItemsToUsers").sleeps = 4 :=
  ⟨rfl, rfl⟩

/-- C3 (amended): a non-200 first response whose body does not decode is
returned after exactly one attempt with the decoder error carrying the
original body, with no sleep — provided that combined error text does not
contain "Service Unavailable", "Bad Request", or "Bad Gateway"; otherwise
the engine sleeps and retries. -/
theorem nonjson_body_no_retry_text_fatal_unparseable (env : Nat → TransportResult)
    (fn : String) (code : Nat) (body : RespBody) (msg : String)
    (henv : env 0 = TransportResult.httpResp code body) (hc : code ≠ 200)
    (hp : body.parse = Except.error msg)
    (hsub : containsRetrySubstr (msg ++ " originalError: " ++ body.text) = false) :
    PlayFab.request env fn
      = ⟨some body, some (GoError.errorf (msg ++ " originalError: " ++ body.text)),
          1, 0⟩ := by
  show requestLoop env fn 0 (3 + 1) none 0 0 = _
  rw [requestLoop_unparseable_step env fn 0 3 none 0 0 code body msg henv hc hp hsub]

/-- Witness for the amended C3 at a 500 response with body `oops`. -/
theorem nonjson_body_no_retry_text_fatal_unparseable_witness :
    PlayFab.request (fun _ => TransportResult.httpResp 500 notJsonBody) "GetUserData"
      = ⟨some notJsonBody,
          some (GoError.errorf
            ("invalid character \x27o\x27 looking for beginning of value"
              ++ " originalError: " ++ "oops")), 1, 0⟩ :=
  nonjson_body_no_retry_text_fatal_unparseable _ _ 500 notJsonBody _
    rfl (by omega) rfl (by decide)

/-- Counterexample for C4: when every attempt is a transport-level failure
(connection refused; no HTTP response), the engine does NOT retry: it makes
exactly one attempt and returns the synthesized conversion error `Failed to
convert to playfab error`, not the transport failure. -/
theorem transport_failure_not_retried_cex :
    PlayFab.request envConnRefused "UpdateUserInventory"
        = ⟨none, some (GoError.errorf "Failed to convert to playfab error"), 1, 0⟩
      ∧ (PlayFab.request envConnRefused "UpdateUserInventory").attempts ≠ 4 :=
  ⟨rfl, by decide⟩

/-- C4 (amended): a transport-level failure on the first attempt is treated
as fatal: the `*PlayFabError` type assertion in `ConvertToPlayFabErrorJson`
fails, the fixed message contains none of the retry substrings, and the
engine returns after exactly one attempt, with no sleep, discarding the
original transport error in favour of the conversion error. -/
theorem transport_failure_returns_conversion_error (env : Nat → TransportResult)
    (fn : String) (msg : String)
    (henv : env 0 = TransportResult.transportErr msg) :
    PlayFab.request env fn
      = ⟨none, some (GoError.errorf "Failed to convert to playfab error"), 1, 0⟩ := by
  show requestLoop env fn 0 (3 + 1) none 0 0 = _
  rw [requestLoop_transport_step env fn 0 3 none 0 0 msg henv]

/-- Witness for the amended C4 at a constant connection-timeout failure. -/
theorem transport_failure_returns_conversion_error_witness :
    PlayFab.request (fun _ => TransportResult.transportErr "i/o timeout")
        "GetUserInventory"
      = ⟨none, some (GoError.errorf "Failed to convert to playfab error"), 1, 0⟩ :=
  transport_failure_returns_conversion_error _ _ "i/o timeout" rfl

/-- Counterexample for C5: a non-200 response with body
`{"status":"Bad Request"}` — a JSON object whose string `status` differs
from `"Conflict"`, with an error summary text containing "Bad Request" — is
NOT retried: the engine returns the original `*PlayFabError` after exactly
one attempt with no sleep. -/
theorem parsed_bad_request_status_not_retried_cex :
    containsRetrySubstr
        (GoError.message (GoError.playFab "AddUserVirtualCurrency" 400 badRequestBody))
        = true
      ∧ PlayFab.request envBadRequest "AddUserVirtualCurrency"
          = ⟨some badRequestBody,
              some (GoError.playFab "AddUserVirtualCurrency" 400 badRequestBody),
              1, 0⟩ :=
  ⟨by decide, rfl⟩

/-- C5 (amended): for every non-200 response whose body decodes to a JSON
object with a string `status` field different from `"Conflict"`, the engine
returns the original ServiceError immediately after that attempt, regardless
of the error summary text — the substring test for "Service Unavailable" /
"Bad Request" / "Bad Gateway" runs only when the body fails to decode. -/
theorem parsed_nonconflict_status_fatal_immediately (env : Nat → TransportResult)
    (fn : String) (code : Nat) (body : RespBody) (obj : List (String × JVal))
    (st : String)
    (henv : env 0 = TransportResult.httpResp code body) (hc : code ≠ 200)
    (hp : body.parse = Except.ok obj)
    (hst : (List.lookup "status" obj).bind JVal.asString = some st)
    (hne : st ≠ conflictStatus) :
    PlayFab.request env fn
      = ⟨some body, some (GoError.playFab fn code body), 1, 0⟩ := by
  show requestLoop env fn 0 (3 + 1) none 0 0 = _
  rw [requestLoop_fatal_status_step env fn 0 3 none 0 0 code body obj st
    henv hc hp hst hne]

/-- Witness for the amended C5 at a 503 response with
`{"status":"ServiceUnavailable"}`. -/
theorem parsed_nonconflict_status_fatal_immediately_witness :
    PlayFab.request (fun _ => TransportResult.httpResp 503 serviceUnavailBody)
        "RedeemCoupon"
      = ⟨some serviceUnavailBody,
          some (GoError.playFab "RedeemCoupon" 503 serviceUnavailBody), 1, 0⟩ :=
  parsed_nonconflict_status_fatal_immediately _ _ 503 serviceUnavailBody _
    "ServiceUnavailable" rfl (by omega) rfl rfl (by decide)

/-- C6 (the code at the failing input): when all 4 attempts fail with the
retryable body `{"status":"Conflict"}`, the exhausted loop executes
`return d, err` where the outer `d` was shadowed (nil) and the named `err`
was last set to nil by the successful `ConvertToPlayFabErrorJson` — so the
engine returns a nil error and nil bytes, not the final attempt's
ServiceError. -/
theorem conflict_exhaustion_returns_nil_error :
    PlayFab.request envConflict "ConsumeItem" = ⟨none, none, 4, 4⟩ := rfl

/-- C8: a non-200 first response with body `{"status":"Unknown"}` yields the
original ServiceError (function name, status code and body preserved) after
exactly one attempt, with no sleep and no retry. -/
theorem unknown_status_fatal_one_attempt (env : Nat → TransportResult)
    (fn : String) (code : Nat)
    (henv : env 0 = TransportResult.httpResp code unknownBody) (hc : code ≠ 200) :
    PlayFab.request env fn
      = ⟨some unknownBody, some (GoError.playFab fn code unknownBody), 1, 0⟩ := by
  show requestLoop env fn 0 (3 + 1) none 0 0 = _
  rw [requestLoop_fatal_status_step env fn 0 3 none 0 0 code unknownBody
    [("status", JVal.str "Unknown")] "Unknown" henv hc rfl rfl (by decide)]

/-- Witness for C8 at a constant 400 response. -/
theorem unknown_status_fatal_one_attempt_witness :
    PlayFab.request (fun _ => TransportResult.httpResp 400 unknownBody)
        "SendPushNotification"
      = ⟨some unknownBody,
          some (GoError.playFab "SendPushNotification" 400 unknownBody), 1, 0⟩ :=
  unknown_status_fatal_one_attempt _ _ 400 rfl (by omega)

/-- C7: `New` fails with a configuration error (and a nil client) whenever
the secret key, title identifier, or catalog version is empty — the model of
`New` is a pure function, so no network activity occurs — and succeeds when
all three are non-empty. -/
theorem new_requires_nonempty_config (secret titleId catalogVersion : String) :
    ((secret = "" ∨ titleId = "" ∨ catalogVersion = "")
        → ∃ e, New secret titleId catalogVersion = Except.error e)
      ∧ (secret ≠ "" → titleId ≠ "" → catalogVersion ≠ ""
          → New secret titleId catalogVersion
              = Except.ok ⟨secret, catalogVersion, titleId⟩) := by
  constructor
  · intro h
    by_cases hs : secret = ""
    · exact ⟨GoError.errorf "secret is required", by simp [New, hs]⟩
    · by_cases hc : catalogVersion = ""
      · exact ⟨GoError.errorf "catalog version is required", by simp [New, hs, hc]⟩
      · by_cases ht : titleId = ""
        · exact ⟨GoError.errorf "titleId is required", by simp [New, hs, hc, ht]⟩
        · rcases h with h | h | h <;> contradiction
  · intro hs ht hc
    simp [New, hs, ht, hc]

/-- Witness for C7: an empty secret is rejected; a fully populated
configuration is accepted. -/
theorem new_requires_nonempty_config_witness :
    (∃ e, New "" "4B52" "main" = Except.error e)
      ∧ New "sk9" "4B52" "main" = Except.ok ⟨"sk9", "main", "4B52"⟩ :=
  ⟨(new_requires_nonempty_config "" "4B52" "main").1 (Or.inl rfl),
    (new_requires_nonempty_config "sk9" "4B52" "main").2
      (by decide) (by decide) (by decide)⟩

/-- C9: when every element of the input list is a nil map (including the
empty list), `RevokeInventoryItems` returns a nil error and issues no
network request; and in every case the request body, when one is sent, is
built from the nil-filtered list only. -/
theorem revoke_nil_items_noop_and_filtering (env : Nat → TransportResult)
    (items : List (Option (List (String × JVal)))) :
    ((∀ x ∈ items, x = none)
        → PlayFab.RevokeInventoryItems env items = ⟨none, 0, none⟩)
      ∧ ((PlayFab.RevokeInventoryItems env items).sentBody = none
          ∨ (PlayFab.RevokeInventoryItems env items).sentBody
              = some (JVal.obj
                  [("Items", JVal.arr ((items.filterMap id).map JVal.obj))])) := by
  constructor
  · intro h
    have hnil : items.filterMap id = [] := by
      rw [List.filterMap_eq_nil_iff]
      intro a ha
      exact h a ha
    simp [PlayFab.RevokeInventoryItems, hnil]
  · by_cases h0 : (items.filterMap id).length = 0
    · left
      simp [PlayFab.RevokeInventoryItems, h0]
    · right
      simp [PlayFab.RevokeInventoryItems, h0]

/-- Witness for C9: a two-element all-nil list is a no-op. -/
theorem revoke_nil_items_noop_and_filtering_witness :
    PlayFab.RevokeInventoryItems envConflict [none, none] = ⟨none, 0, none⟩ :=
  (revoke_nil_items_noop_and_filtering envConflict [none, none]).1 (by simp)

/-- C10: a successful (HTTP 200) `GetPlayerTags` response whose decoded body
has a `data` object in which `Tags` is absent or not an array yields an
empty tag list and a nil error: the discarded `ok` of the type assertion
leaves the nil slice and the collection loop runs zero times. -/
theorem getplayertags_missing_tags_empty_ok (env : Nat → TransportResult)
    (body : RespBody) (res data : List (String × JVal))
    (henv : env 0 = TransportResult.httpResp 200 body)
    (hp : body.parse = Except.ok res)
    (hdata : (List.lookup "data" res).bind JVal.asObj = some data)
    (htags : (List.lookup "Tags" data).bind JVal.asArr = none) :
    PlayFab.GetPlayerTags env = Except.ok [] := by
  have hreq : PlayFab.request env "GetPlayerTags" = ⟨some body, none, 1, 0⟩ := by
    show requestLoop env "GetPlayerTags" 0 (3 + 1) none 0 0 = _
    rw [requestLoop_success_step env "GetPlayerTags" 0 3 none 0 0 body henv]
  simp [PlayFab.GetPlayerTags, hreq, hp, hdata, htags, extractTags]

/-- Witness for C10 at a body whose `data` object lacks a `Tags` key. -/
theorem getplayertags_missing_tags_empty_ok_witness :
    PlayFab.GetPlayerTags (fun _ => TransportResult.httpResp 200 dataOnlyBody)
      = Except.ok [] :=
  getplayertags_missing_tags_empty_ok _ dataOnlyBody _ _ rfl rfl rfl rfl
